import Mathlib

/-!
Verification of the event-classification handlers of the neon-autoscaling
repository: the pod-mirror and VM-mirror callbacks of
`pkg/plugin/watch.go`, the `-skip-update-validation-for` flag parser of
the controller entrypoint, and the swap-resize shell script.

Handlers are embedded as pure functions from the delivered objects to the
list of work items they submit, in submission order.
-/

/-- A (namespace, name) pair identifying a cluster object
(`util.NamespacedName`). -/
structure NamespacedName where
  ns : String
  name : String
deriving DecidableEq, Repr

/-- The label key marking VM-backed pods (`LabelVM`, declared elsewhere in
the plugin package; its exact value is irrelevant to the handlers, which
only test membership). -/
def LabelVM : String := "autoscaling.neon.tech/vm"

/-- A pod object, projected to the fields the pod-mirror handlers read:
its name, namespace, label keys, and completion state. The `completed`
field records the result of `util.PodCompleted` (a pure predicate on pod
status, defined outside this package). -/
structure Pod where
  name : String
  ns : String
  labels : List String
  completed : Bool
deriving DecidableEq, Repr

/-- Result of `util.PodCompleted` on a pod: whether its status phase is
terminal. Carried as a field of the projected pod object. -/
def PodCompleted (pod : Pod) : Bool := pod.completed

/-- Work items the pod-mirror handlers can submit: `submitVMDeletion` or
`submitPodDeletion`, each carrying a NamespacedName. -/
inductive PodWorkItem where
  | vmDeletion (name : NamespacedName)
  | podDeletion (name : NamespacedName)
deriving DecidableEq, Repr

/-- The `UpdateFunc` of `watchPodEvents` (watch.go lines 51-62): on a
not-completed to completed transition, submit a deletion work item for the
new pod, routed by the VM label; otherwise submit nothing. -/
def podUpdateFunc (oldPod newPod : Pod) : List PodWorkItem :=
  if !PodCompleted oldPod && PodCompleted newPod then
    let name : NamespacedName := ⟨newPod.ns, newPod.name⟩
    if newPod.labels.contains LabelVM then
      [PodWorkItem.vmDeletion name]
    else
      [PodWorkItem.podDeletion name]
  else
    []

/-- The `DeleteFunc` of `watchPodEvents` (watch.go lines 63-75): if the
deleted pod is already completed, only log; otherwise submit a deletion
work item routed by the VM label. The `mayBeStale` argument is received
but never read by the handler body. -/
def podDeleteFunc (pod : Pod) (mayBeStale : Bool) : List PodWorkItem :=
  let name : NamespacedName := ⟨pod.ns, pod.name⟩
  if PodCompleted pod then
    []
  else
    if pod.labels.contains LabelVM then
      [PodWorkItem.vmDeletion name]
    else
      [PodWorkItem.podDeletion name]

/-- Scaling bounds of a VM: the minimum and maximum resource allocation
its autoscaling policy permits, in abstract resource units. -/
structure ScalingBounds where
  min : Nat
  max : Nat
deriving DecidableEq, Repr

/-- The scheduling-relevant projection of a VM object (`api.VmInfo`):
namespace, scaling-enabled flag, and scaling bounds. -/
structure VmInfo where
  ns : String
  scalingEnabled : Bool
  bounds : ScalingBounds
deriving DecidableEq, Repr

/-- Modelled from the spec: `VmInfo.EqualScalingBounds` is defined outside
the given sources; per the spec, the scaling bounds are the [min, max]
resource allocation pair, so equality of bounds is equality of that
pair. -/
def EqualScalingBounds (a b : VmInfo) : Bool :=
  a.bounds == b.bounds

/-- A VM custom-resource object, projected to the fields the VM-mirror
handler reads directly (`.Status.PodName`, the object key) together with
the data `api.ExtractVmInfo` derives from it. The `malformed` field
records whether extraction fails on this object. -/
structure VirtualMachine where
  ns : String
  name : String
  statusPodName : String
  scalingEnabled : Bool
  bounds : ScalingBounds
  malformed : Bool
deriving DecidableEq, Repr

/-- Modelled from the spec: `api.ExtractVmInfo` is defined outside the
given sources; per the spec it is a pure extraction of the
scheduling-relevant projection from the raw VM object, and it can fail on
a malformed object without aborting the watch. Failure is `none`. -/
def ExtractVmInfo (vm : VirtualMachine) : Option VmInfo :=
  if vm.malformed then
    none
  else
    some { ns := vm.ns, scalingEnabled := vm.scalingEnabled, bounds := vm.bounds }

/-- Work items the VM-mirror handler can submit: `submitVMDisabledScaling`
(keyed by a NamespacedName) or `submitVMBoundsChanged` (carrying a VmInfo
and a pod name). -/
inductive VMWorkItem where
  | disableScaling (name : NamespacedName)
  | boundsChanged (info : VmInfo) (podName : String)
deriving DecidableEq, Repr

/-- The `UpdateFunc` of `watchVMEvents` (watch.go lines 133-176), as the
list of work items submitted, in order. Control flow mirrors the source:
extract old then new (each failure drops the update), drop if the new
status pod name is empty, submit disable-scaling on an enabled-to-disabled
transition, stop if the pod name changed, stop if scaling bounds are
equal, otherwise submit bounds-changed with the new info and pod name. -/
def vmUpdateFunc (oldVM newVM : VirtualMachine) : List VMWorkItem :=
  match ExtractVmInfo oldVM with
  | none => []
  | some oldInfo =>
    match ExtractVmInfo newVM with
    | none => []
    | some newInfo =>
      if newVM.statusPodName = "" then
        []
      else
        let disabled : List VMWorkItem :=
          if oldInfo.scalingEnabled && !newInfo.scalingEnabled then
            [VMWorkItem.disableScaling ⟨newInfo.ns, newVM.statusPodName⟩]
          else
            []
        if oldVM.statusPodName ≠ newVM.statusPodName then
          disabled
        else if EqualScalingBounds oldInfo newInfo then
          disabled
        else
          disabled ++ [VMWorkItem.boundsChanged newInfo newVM.statusPodName]

/-- The sequence of objects on which the `UpdateFunc` of `watchVMEvents`
invokes `api.ExtractVmInfo`, in call order: the old object first, and the
new object only if extraction on the old object succeeded (the handler
returns before the second call otherwise, watch.go lines 134-143). -/
def vmUpdateExtractions (oldVM newVM : VirtualMachine) : List VirtualMachine :=
  match ExtractVmInfo oldVM with
  | none => [oldVM]
  | some _ => [oldVM, newVM]

/-- Whether a VM work item is a bounds-changed submission. -/
def isBoundsChanged : VMWorkItem → Bool
  | VMWorkItem.boundsChanged _ _ => true
  | _ => false

/-- Whether a VM work item is a disable-scaling submission. -/
def isDisableScaling : VMWorkItem → Bool
  | VMWorkItem.disableScaling _ => true
  | _ => false

/-- Modelled from the spec: Go strings.SplitN for positive count n and a
separator, following the documented Go semantics (the Go standard library
is outside this repository): split around at most n-1 instances of the
separator, so at most n substrings result, the last holding the unsplit
remainder; in particular with n = 1 the whole input is returned as the
single element. -/
def goSplitN (s sep : String) : Nat → List String
  | 0 => []
  | 1 => [s]
  | n + 2 =>
    match s.splitOn sep with
    | [] => [s]
    | [_] => [s]
    | part :: rest => part :: goSplitN (String.intercalate sep rest) sep (n + 1)

/-- Splitting a character list around every occurrence of a separator
character; the empty list yields one empty piece. -/
def splitOnChar (c : Char) : List Char → List (List Char)
  | [] => [[]]
  | ch :: rest =>
    let r := splitOnChar c rest
    if ch = c then [] :: r
    else
      match r with
      | [] => [[ch]]
      | h :: t => (ch :: h) :: t

/-- Modelled from the spec: Go strings.Split for a single-character
separator (the Go standard library is outside this repository): split
around every occurrence of the separator, so n occurrences yield n+1
substrings, and the empty string yields one empty substring. -/
def goSplitChar (c : Char) (s : String) : List String :=
  (splitOnChar c s.data).map String.mk

/-- One entry of the -skip-update-validation-for flag value, parsed as in
the flag callback (controller entrypoint, lines 153-159): split by slash
with strings.SplitN(name, slash, 1); a single-element result maps to
namespace default with the whole entry as the name, otherwise the first
element is the namespace and the second the name. -/
def parseSkipEntry (name : String) : NamespacedName :=
  let splitBySlash := goSplitN name "/" 1
  if splitBySlash.length = 1 then
    { ns := "default", name := splitBySlash.getD 0 "" }
  else
    { ns := splitBySlash.getD 0 "", name := splitBySlash.getD 1 "" }

/-- The whole -skip-update-validation-for flag callback (controller
entrypoint, lines 144-165): the empty value yields the empty set; a
non-empty value is split by commas, an empty entry is an error, and every
entry is parsed by parseSkipEntry. The resulting collection is returned
here as the ordered list of parsed entries. -/
def parseSkipUpdateValidationFor (value : String) : Except String (List NamespacedName) :=
  if value = "" then
    Except.ok []
  else
    let names := goSplitChar ',' value
    if names.contains "" then
      Except.error "name must not be empty"
    else
      Except.ok (names.map parseSkipEntry)

/-- External commands the resize-swap script runs against the swap disk,
in order. The mkswap size argument is in KiB, as the script computes it. -/
inductive SwapCmd where
  | swapoff
  | mkswap (sizeKiB : Nat)
  | swapon
deriving DecidableEq, Repr

/-- Outcome of a run of the resize-swap script: the commands applied to
the swap disk in order, and the exit status. -/
structure ScriptResult where
  cmds : List SwapCmd
  exitCode : Nat
deriving DecidableEq, Repr

/-- Value of a decimal digit character, none for any other character;
48 is the code of the zero digit. -/
def digitValue (c : Char) : Option Nat :=
  if c.isDigit then some (c.toNat - 48) else none

/-- Left fold of decimal digits into a number, none on a non-digit. -/
def parseDecimalAux : List Char → Nat → Option Nat
  | [], acc => some acc
  | c :: rest, acc =>
    match digitValue c with
    | some d => parseDecimalAux rest (acc * 10 + d)
    | none => none

/-- Modelled from the spec: the shell arithmetic expansion in the
resize-swap script reads its operand as a decimal natural number; a
value that is not one makes the expansion fail, which this model reports
as none. -/
def parseDecimal (s : String) : Option Nat :=
  match s.data with
  | [] => none
  | l => parseDecimalAux l 0

/-- The resize-swap script on its size argument. It always runs swapoff
first, tolerating failure when swap is already off. If the argument
equals the string 0 it exits with status 0, leaving swap disabled.
Otherwise it runs mkswap with the size divided by 1024 (shell integer
arithmetic, so the KiB count is truncated) and re-enables swap. A
non-numeric argument makes the arithmetic expansion fail, and under
set -e the script aborts with a nonzero status, modelled as exit code
2. -/
def resizeSwapScript (newSize : String) : ScriptResult :=
  if newSize = "0" then
    { cmds := [SwapCmd.swapoff], exitCode := 0 }
  else
    match parseDecimal newSize with
    | some n =>
      { cmds := [SwapCmd.swapoff, SwapCmd.mkswap (n / 1024), SwapCmd.swapon], exitCode := 0 }
    | none => { cmds := [SwapCmd.swapoff], exitCode := 2 }

/-- C4: on a pod update, exactly one removal work item keyed by the new
pod, routed by the VM label, is submitted when the old pod is not
completed and the new pod is completed; in every other case nothing is
submitted. -/
theorem pod_update_edge_removal (oldPod newPod : Pod) :
    podUpdateFunc oldPod newPod =
      if PodCompleted oldPod = false ∧ PodCompleted newPod = true then
        if newPod.labels.contains LabelVM then
          [PodWorkItem.vmDeletion ⟨newPod.ns, newPod.name⟩]
        else
          [PodWorkItem.podDeletion ⟨newPod.ns, newPod.name⟩]
      else
        [] := by
  unfold podUpdateFunc
  by_cases h1 : PodCompleted oldPod = false <;>
    by_cases h2 : PodCompleted newPod = true <;>
      simp_all

/-- C5: on a pod delete event, exactly one removal work item keyed by the
pod, routed by the VM label, is submitted when the pod is not completed;
if the pod is already completed nothing is submitted. -/
theorem pod_delete_removal (pod : Pod) (mayBeStale : Bool) :
    podDeleteFunc pod mayBeStale =
      if PodCompleted pod = true then
        []
      else
        if pod.labels.contains LabelVM then
          [PodWorkItem.vmDeletion ⟨pod.ns, pod.name⟩]
        else
          [PodWorkItem.podDeletion ⟨pod.ns, pod.name⟩] := by
  unfold podDeleteFunc
  by_cases h : PodCompleted pod = true <;> simp_all

/-- C2: for an update taking a pod from not-completed to completed,
followed by a delete event for the same now-completed pod, exactly one
removal work item is submitted in total: the update submits it and the
delete submits nothing. -/
theorem pod_completion_then_delete_once (oldPod newPod : Pod) (mayBeStale : Bool)
    (h1 : PodCompleted oldPod = false) (h2 : PodCompleted newPod = true) :
    (podUpdateFunc oldPod newPod ++ podDeleteFunc newPod mayBeStale).length = 1 ∧
      (podUpdateFunc oldPod newPod).length = 1 ∧
      podDeleteFunc newPod mayBeStale = [] := by
  unfold podUpdateFunc podDeleteFunc
  by_cases hl : newPod.labels.contains LabelVM <;> simp_all

/-- C2 witness: a concrete running pod completing and then being
deleted produces one removal work item from the update and none from the
delete. -/
theorem pod_completion_then_delete_once_witness :
    PodCompleted ⟨"pod2", "ns", [], false⟩ = false ∧
      PodCompleted ⟨"pod2", "ns", [], true⟩ = true ∧
      ((podUpdateFunc ⟨"pod2", "ns", [], false⟩ ⟨"pod2", "ns", [], true⟩ ++
          podDeleteFunc ⟨"pod2", "ns", [], true⟩ false).length = 1 ∧
        (podUpdateFunc ⟨"pod2", "ns", [], false⟩ ⟨"pod2", "ns", [], true⟩).length = 1 ∧
        podDeleteFunc ⟨"pod2", "ns", [], true⟩ false = []) :=
  ⟨rfl, rfl,
    pod_completion_then_delete_once ⟨"pod2", "ns", [], false⟩ ⟨"pod2", "ns", [], true⟩
      false rfl rfl⟩

/-- C8: the pod delete handler submits the same work items whether the
delete was directly observed or inferred from a relist: its output does
not depend on the mayBeStale argument. -/
theorem pod_delete_ignores_stale (pod : Pod) :
    podDeleteFunc pod true = podDeleteFunc pod false := rfl

/-- C1: when both extractions succeed and the new status pod name is
non-empty, a bounds-changed work item, carrying the new VmInfo and the
new pod name, is submitted exactly once if and only if the pod names are
equal and the scaling bounds differ; otherwise none is submitted. -/
theorem vm_bounds_changed_iff (oldVM newVM : VirtualMachine) (oldInfo newInfo : VmInfo)
    (hold : ExtractVmInfo oldVM = some oldInfo)
    (hnew : ExtractVmInfo newVM = some newInfo)
    (hpod : newVM.statusPodName ≠ "") :
    (vmUpdateFunc oldVM newVM).filter isBoundsChanged =
      if oldVM.statusPodName = newVM.statusPodName ∧
          EqualScalingBounds oldInfo newInfo = false then
        [VMWorkItem.boundsChanged newInfo newVM.statusPodName]
      else
        [] := by
  unfold vmUpdateFunc
  rw [hold, hnew]
  by_cases hp : oldVM.statusPodName = newVM.statusPodName <;>
    by_cases hb : EqualScalingBounds oldInfo newInfo = true <;>
      by_cases hd : (oldInfo.scalingEnabled && !newInfo.scalingEnabled) = true <;>
        simp_all [isBoundsChanged, List.filter]

/-- C1 witness: a concrete update with equal pod names and bounds changed
from [1, 4] to [1, 8] submits exactly one bounds-changed item with the
new VmInfo and pod name. -/
theorem vm_bounds_changed_iff_witness :
    ExtractVmInfo ⟨"ns", "vm1", "pod1", true, ⟨1, 4⟩, false⟩ =
        some ⟨"ns", true, ⟨1, 4⟩⟩ ∧
      ExtractVmInfo ⟨"ns", "vm1", "pod1", true, ⟨1, 8⟩, false⟩ =
        some ⟨"ns", true, ⟨1, 8⟩⟩ ∧
      ("pod1" : String) ≠ "" ∧
      (vmUpdateFunc ⟨"ns", "vm1", "pod1", true, ⟨1, 4⟩, false⟩
            ⟨"ns", "vm1", "pod1", true, ⟨1, 8⟩, false⟩).filter isBoundsChanged =
        [VMWorkItem.boundsChanged ⟨"ns", true, ⟨1, 8⟩⟩ "pod1"] :=
  ⟨rfl, rfl, by decide, by
    have h := vm_bounds_changed_iff ⟨"ns", "vm1", "pod1", true, ⟨1, 4⟩, false⟩
      ⟨"ns", "vm1", "pod1", true, ⟨1, 8⟩, false⟩ ⟨"ns", true, ⟨1, 4⟩⟩
      ⟨"ns", true, ⟨1, 8⟩⟩ rfl rfl (by decide)
    simpa using h⟩

/-- C3: when both extractions succeed, the new status pod name is
non-empty, and scaling goes from enabled to disabled, exactly one
disable-scaling work item is submitted, keyed by the namespace of the
new VM and its current status pod name. -/
theorem vm_disable_scaling_submitted (oldVM newVM : VirtualMachine)
    (oldInfo newInfo : VmInfo)
    (hold : ExtractVmInfo oldVM = some oldInfo)
    (hnew : ExtractVmInfo newVM = some newInfo)
    (hpod : newVM.statusPodName ≠ "")
    (hen : oldInfo.scalingEnabled = true)
    (hdis : newInfo.scalingEnabled = false) :
    (vmUpdateFunc oldVM newVM).filter isDisableScaling =
      [VMWorkItem.disableScaling ⟨newVM.ns, newVM.statusPodName⟩] := by
  have hns : newInfo.ns = newVM.ns := by
    by_cases hm : newVM.malformed <;> simp_all [ExtractVmInfo] <;>
      exact (congrArg VmInfo.ns hnew).symm
  unfold vmUpdateFunc
  rw [hold, hnew]
  by_cases hp : oldVM.statusPodName = newVM.statusPodName <;>
    by_cases hb : EqualScalingBounds oldInfo newInfo = true <;>
      simp_all [isDisableScaling, List.filter]

/-- C3 witness: a concrete update disabling scaling submits exactly one
disable-scaling item keyed by the namespace and the current pod name. -/
theorem vm_disable_scaling_submitted_witness :
    ExtractVmInfo ⟨"ns", "vm1", "pod1", true, ⟨1, 4⟩, false⟩ =
        some ⟨"ns", true, ⟨1, 4⟩⟩ ∧
      ExtractVmInfo ⟨"ns", "vm1", "pod1", false, ⟨1, 4⟩, false⟩ =
        some ⟨"ns", false, ⟨1, 4⟩⟩ ∧
      ("pod1" : String) ≠ "" ∧
      (vmUpdateFunc ⟨"ns", "vm1", "pod1", true, ⟨1, 4⟩, false⟩
            ⟨"ns", "vm1", "pod1", false, ⟨1, 4⟩, false⟩).filter isDisableScaling =
        [VMWorkItem.disableScaling ⟨"ns", "pod1"⟩] :=
  ⟨rfl, rfl, by decide,
    vm_disable_scaling_submitted ⟨"ns", "vm1", "pod1", true, ⟨1, 4⟩, false⟩
      ⟨"ns", "vm1", "pod1", false, ⟨1, 4⟩, false⟩ ⟨"ns", true, ⟨1, 4⟩⟩
      ⟨"ns", false, ⟨1, 4⟩⟩ rfl rfl (by decide) rfl rfl⟩

/-- C6: if extraction fails on the old or the new VM object, the update
is dropped with no work item, and a failure on the old object means the
new object is never extracted. -/
theorem vm_update_extraction_failure_drops (oldVM newVM : VirtualMachine)
    (h : ExtractVmInfo oldVM = none ∨ ExtractVmInfo newVM = none) :
    vmUpdateFunc oldVM newVM = [] ∧
      (ExtractVmInfo oldVM = none → vmUpdateExtractions oldVM newVM = [oldVM]) := by
  unfold vmUpdateFunc vmUpdateExtractions
  rcases h with h | h
  · simp_all
  · cases ho : ExtractVmInfo oldVM <;> simp_all

/-- C6 witness: a concrete malformed old VM object drops the update and
stops before extracting the new object. -/
theorem vm_update_extraction_failure_drops_witness :
    ExtractVmInfo ⟨"ns", "vm1", "pod1", true, ⟨1, 4⟩, true⟩ = none ∧
      (vmUpdateFunc ⟨"ns", "vm1", "pod1", true, ⟨1, 4⟩, true⟩
          ⟨"ns", "vm1", "pod1", true, ⟨1, 8⟩, false⟩ = [] ∧
        (ExtractVmInfo ⟨"ns", "vm1", "pod1", true, ⟨1, 4⟩, true⟩ = none →
          vmUpdateExtractions ⟨"ns", "vm1", "pod1", true, ⟨1, 4⟩, true⟩
              ⟨"ns", "vm1", "pod1", true, ⟨1, 8⟩, false⟩ =
            [⟨"ns", "vm1", "pod1", true, ⟨1, 4⟩, true⟩])) :=
  ⟨rfl,
    vm_update_extraction_failure_drops ⟨"ns", "vm1", "pod1", true, ⟨1, 4⟩, true⟩
      ⟨"ns", "vm1", "pod1", true, ⟨1, 8⟩, false⟩ (Or.inl rfl)⟩

/-- C7: when both extractions succeed but the new status pod name is
empty, the update is dropped entirely: no work item of any kind is
submitted. -/
theorem vm_update_empty_podname_drops (oldVM newVM : VirtualMachine)
    (h1 : (ExtractVmInfo oldVM).isSome = true)
    (h2 : (ExtractVmInfo newVM).isSome = true)
    (hpod : newVM.statusPodName = "") :
    vmUpdateFunc oldVM newVM = [] := by
  unfold vmUpdateFunc
  cases ho : ExtractVmInfo oldVM <;> cases hn : ExtractVmInfo newVM <;> simp_all

/-- C7 witness: a concrete update whose new object has an empty status
pod name submits nothing, though scaling was disabled and bounds
changed. -/
theorem vm_update_empty_podname_drops_witness :
    (ExtractVmInfo ⟨"ns", "vm1", "pod1", true, ⟨1, 4⟩, false⟩).isSome = true ∧
      (ExtractVmInfo ⟨"ns", "vm1", "", false, ⟨1, 8⟩, false⟩).isSome = true ∧
      (⟨"ns", "vm1", "", false, ⟨1, 8⟩, false⟩ : VirtualMachine).statusPodName = "" ∧
      vmUpdateFunc ⟨"ns", "vm1", "pod1", true, ⟨1, 4⟩, false⟩
          ⟨"ns", "vm1", "", false, ⟨1, 8⟩, false⟩ = [] :=
  ⟨rfl, rfl, rfl,
    vm_update_empty_podname_drops ⟨"ns", "vm1", "pod1", true, ⟨1, 4⟩, false⟩
      ⟨"ns", "vm1", "", false, ⟨1, 8⟩, false⟩ rfl rfl rfl⟩

/-- C9: every non-empty entry of the comma-separated flag value, even
one containing a slash, parses to namespace default with the entire
entry unmodified as the name: SplitN with count 1 always returns the
whole entry as a single element, so the single-element branch is always
taken, and a successful parse of the whole value contains that pair. -/
theorem skip_validation_entry_never_split (value entry : String)
    (hv : value ≠ "") (hmem : entry ∈ goSplitChar ',' value) (hne : entry ≠ "") :
    goSplitN entry "/" 1 = [entry] ∧
      parseSkipEntry entry = { ns := "default", name := entry } ∧
      ∀ l, parseSkipUpdateValidationFor value = Except.ok l →
        ({ ns := "default", name := entry } : NamespacedName) ∈ l := by
  have hparse : parseSkipEntry entry = { ns := "default", name := entry } := by
    simp [parseSkipEntry, goSplitN]
  refine ⟨rfl, hparse, ?_⟩
  intro l hl
  unfold parseSkipUpdateValidationFor at hl
  rw [if_neg hv] at hl
  by_cases hc : (goSplitChar ',' value).contains "" = true
  · rw [if_pos hc] at hl
    exact absurd hl (by simp)
  · rw [if_neg hc] at hl
    have hl2 : (goSplitChar ',' value).map parseSkipEntry = l := by
      injection hl
    rw [← hl2]
    exact hparse ▸ List.mem_map.mpr ⟨entry, hmem, rfl⟩

/-- C9 witness: the entry ns/bar inside a two-entry flag value is not
divided at the slash and parses to namespace default with name
ns/bar. -/
theorem skip_validation_entry_never_split_witness :
    ("foo,ns/bar" : String) ≠ "" ∧
      ("ns/bar" : String) ∈ goSplitChar ',' "foo,ns/bar" ∧
      ("ns/bar" : String) ≠ "" ∧
      (goSplitN "ns/bar" "/" 1 = ["ns/bar"] ∧
        parseSkipEntry "ns/bar" = { ns := "default", name := "ns/bar" } ∧
        ∀ l, parseSkipUpdateValidationFor "foo,ns/bar" = Except.ok l →
          ({ ns := "default", name := "ns/bar" } : NamespacedName) ∈ l) :=
  ⟨by decide, by decide, by decide,
    skip_validation_entry_never_split "foo,ns/bar" "ns/bar" (by decide) (by decide)
      (by decide)⟩

/-- C10: the resize-swap script always disables swap first; on the
argument 0 it exits with status 0 leaving swap disabled; on any other
numeric size it recreates the swap with mkswap given the size divided by
1024 (truncated) and re-enables it, so the effective size is the size
rounded down to a multiple of 1024 bytes. -/
theorem resize_swap_behaviour (arg : String) :
    (resizeSwapScript arg).cmds.head? = some SwapCmd.swapoff ∧
      (arg = "0" →
        resizeSwapScript arg = { cmds := [SwapCmd.swapoff], exitCode := 0 }) ∧
      ∀ n : Nat, parseDecimal arg = some n → arg ≠ "0" →
        resizeSwapScript arg =
            { cmds := [SwapCmd.swapoff, SwapCmd.mkswap (n / 1024), SwapCmd.swapon],
              exitCode := 0 } ∧
          n / 1024 * 1024 = n - n % 1024 ∧
          n / 1024 * 1024 ≤ n ∧ 1024 ∣ n / 1024 * 1024 := by
  refine ⟨?_, ?_, ?_⟩
  · unfold resizeSwapScript
    split
    · rfl
    · cases parseDecimal arg <;> rfl
  · intro h0
    simp [resizeSwapScript, h0]
  · intro n hn h0
    refine ⟨by simp [resizeSwapScript, h0, hn], ?_, Nat.div_mul_le_self n 1024,
      dvd_mul_left 1024 (n / 1024)⟩
    omega

/-- C10 witness: argument 4097 disables swap, runs mkswap with 4 KiB and
re-enables swap, an effective size of 4096 bytes. -/
theorem resize_swap_behaviour_witness :
    parseDecimal "4097" = some 4097 ∧
      ("4097" : String) ≠ "0" ∧
      (resizeSwapScript "4097" =
          { cmds := [SwapCmd.swapoff, SwapCmd.mkswap (4097 / 1024), SwapCmd.swapon],
            exitCode := 0 } ∧
        4097 / 1024 * 1024 = 4097 - 4097 % 1024 ∧
        4097 / 1024 * 1024 ≤ 4097 ∧ 1024 ∣ 4097 / 1024 * 1024) :=
  ⟨by decide, by decide,
    (resize_swap_behaviour "4097").2.2 4097 (by decide) (by decide)⟩
